import Mathlib

/-!
Verification of the PyFactorGraph measurement entities and the GOATS dataset
ingestion pipeline (`py_factor_graph/measurements.py` and
`py_factor_graph/parsing/parse_goats_data.py`) against their natural-language
specification.

Conventions of the shallow embedding:
* floats are modelled as rationals (`ℚ`); a raw range-channel cell is an
  `RVal` (NaN, infinity, or a finite real), matching what `pandas.read_csv`
  can place in a numeric column;
* an `attrs` class whose validators may raise is modelled by a constructor
  function returning `Except String _` carrying the `ValueError` message;
  a class with no validators always constructs;
* the 2D (`dim = 2`) code path is modelled; the `dim` attribute is kept
  because the beacon-admission threshold reads it;
* dataframe columns are lists indexed by row, with the pandas convention
  that a missing cell is NaN (`List.getD _ _ RVal.nan`).
-/

namespace PyFactorGraph

/-- Is an `Except` value a success?  (Models: the Python constructor call
returned normally instead of raising.) -/
def isOk {ε α : Type _} : Except ε α → Bool
  | Except.ok _ => true
  | Except.error _ => false

/-- The Python prefix test `s.startswith(pre)`, on the character sequences of
the two strings. -/
def strStarts (s pre : String) : Bool :=
  pre.toList.isPrefixOf s.toList

/-! ## Measurement entities (`py_factor_graph/measurements.py`) -/

/-- Embeds `measurements.PoseMeasurement`, an `attr.s(frozen=True)` class with
fields `base_pose, to_pose, x, y, theta, translation_weight, rotation_weight`.
None of its `attr.ib()` fields carries a validator. -/
structure PoseMeasurement where
  base_pose : String
  to_pose : String
  x : ℚ
  y : ℚ
  theta : ℚ
  translation_weight : ℚ
  rotation_weight : ℚ
  deriving DecidableEq

/-- Construction of a `PoseMeasurement`.  The `attrs` machinery runs the field
validators at `__init__` time, but `PoseMeasurement` declares none, so
construction is the plain record constructor and never raises. -/
def mkPoseMeasurement (base to_p : String) (x y theta tw rw : ℚ) :
    Except String PoseMeasurement :=
  Except.ok ⟨base, to_p, x, y, theta, tw, rw⟩

/-- Embeds the `covariance` property: the diagonal matrix
`[[1/tw, 0, 0], [0, 1/tw, 0], [0, 0, 1/rw]]`.  (In Python `1/0` raises
`ZeroDivisionError`; in `ℚ` it is `0` — the claims below never divide by a
weight equal to zero except to exhibit that nothing forbids it.) -/
def PoseMeasurement.covariance (m : PoseMeasurement) : List (List ℚ) :=
  [[1 / m.translation_weight, 0, 0],
   [0, 1 / m.translation_weight, 0],
   [0, 0, 1 / m.rotation_weight]]

/-- The `ValueError` message for an association tuple of the wrong arity. -/
def errAssocLen : String :=
  "Range measurements must have exactly two variables associated with."

/-- The `ValueError` message for an association with duplicate entries. -/
def errAssocDup : String :=
  "Range measurements must have unique variables."

/-- The `ValueError` message for a first association entry naming a landmark. -/
def errAssocPoseRole : String :=
  "First association must be a pose - cannot start with L"

/-- The `ValueError` message for a second association entry that is no landmark. -/
def errAssocLandmarkRole : String :=
  "Second association must be a Landmark - must start with L"

/-- Embeds `FGRangeMeasurement.check_association`, the `@association.validator`:
`len(value) != 2` is rejected first; then identical entries; then a first
entry starting with `"L"`; then a second entry not starting with `"L"`. -/
def checkAssociation (value : List String) : Except String Unit :=
  match value with
  | [a, b] =>
    if a = b then Except.error errAssocDup
    else if strStarts a "L" then Except.error errAssocPoseRole
    else if ¬ (strStarts b "L") then Except.error errAssocLandmarkRole
    else Except.ok ()
  | _ => Except.error errAssocLen

/-- Embeds `measurements.FGRangeMeasurement` (fields `association, dist,
stddev`).  The association is kept as a list so that wrong-arity inputs are
expressible, exactly as a Python caller can pass a tuple of any length. -/
structure FGRangeMeasurement where
  association : List String
  dist : ℚ
  stddev : ℚ
  deriving DecidableEq

/-- Construction of an `FGRangeMeasurement`: `attrs` runs
`check_association` on the `association` field and raising aborts
construction. -/
def mkFGRangeMeasurement (a : List String) (d s : ℚ) :
    Except String FGRangeMeasurement :=
  match checkAssociation a with
  | Except.ok _ => Except.ok ⟨a, d, s⟩
  | Except.error e => Except.error e

/-- Embeds the `weight` property: `1 / stddev ** 2`. -/
def FGRangeMeasurement.weight (m : FGRangeMeasurement) : ℚ :=
  1 / m.stddev ^ 2

/-- Embeds `FGRangeMeasurement.pose_key`: `association[0]`. -/
def FGRangeMeasurement.poseKey (m : FGRangeMeasurement) : String :=
  m.association.getD 0 ""

/-- Embeds `FGRangeMeasurement.landmark_key`: `association[1]`. -/
def FGRangeMeasurement.landmarkKey (m : FGRangeMeasurement) : String :=
  m.association.getD 1 ""

/-- Embeds `check_true_association` / `check_measured_association` of
`AmbiguousFGRangeMeasurement`: `len(value) != 2` is rejected, then
`len(value) != len(set(value))` (a duplicate entry).  No pose/landmark role
check appears here. -/
def checkAmbiguousAssociation (value : List String) : Except String Unit :=
  if value.length ≠ 2 then Except.error errAssocLen
  else if value.length ≠ value.dedup.length then Except.error errAssocDup
  else Except.ok ()

/-- Embeds `measurements.AmbiguousFGRangeMeasurement` (fields
`true_association, measured_association, dist, stddev`). -/
structure AmbiguousFGRangeMeasurement where
  true_association : List String
  measured_association : List String
  dist : ℚ
  stddev : ℚ
  deriving DecidableEq

/-- Construction of an `AmbiguousFGRangeMeasurement`: `attrs` validates the
fields in declaration order, `true_association` first. -/
def mkAmbiguousFGRangeMeasurement (ta ma : List String) (d s : ℚ) :
    Except String AmbiguousFGRangeMeasurement :=
  match checkAmbiguousAssociation ta with
  | Except.error e => Except.error e
  | Except.ok _ =>
    match checkAmbiguousAssociation ma with
    | Except.error e => Except.error e
    | Except.ok _ => Except.ok ⟨ta, ma, d, s⟩

/-- Embeds the ambiguous measurement's `weight` property: `1 / stddev ** 2`. -/
def AmbiguousFGRangeMeasurement.weight (m : AmbiguousFGRangeMeasurement) : ℚ :=
  1 / m.stddev ^ 2

/-! ## The GOATS ingestion pipeline (`parsing/parse_goats_data.py`) -/

/-- A cell of a numeric pandas column: NaN (also the encoding of a missing
cell), an infinity, or a finite real value. -/
inductive RVal where
  | nan : RVal
  | inf : RVal
  | fin : ℚ → RVal
  deriving DecidableEq

/-- Embeds `np.isnan` on one cell. -/
def RVal.isNaN : RVal → Bool
  | RVal.nan => true
  | _ => false

/-- Embeds `np.isinf` on one cell. -/
def RVal.isInf : RVal → Bool
  | RVal.inf => true
  | _ => false

/-- Embeds `np.isreal` on one cell.  On a float (as read from a CSV) it is
always `True` — NaN and infinity included; only a complex value, which a
numeric CSV column cannot hold, would make it `False`. -/
def RVal.isReal : RVal → Bool := fun _ => true

/-- One row of the GOATS sensor table, 2D slice: the INS position columns
`insXYZ_1/2`, the ground-truth position columns `iNav_GT_1/2`, and the INS
yaw column `insRPY_3`. -/
structure SensorRow where
  insX : ℚ
  insY : ℚ
  gtX : ℚ
  gtY : ℚ
  yaw : ℚ
  deriving DecidableEq

/-- The state of a `GoatsParser` after loading its two CSV files: the sensor
rows, the raw (`ranges_i`) and filtered (`filtered_ranges_i`) range columns
(one list of cells per beacon, indexed by row), the beacon locations, the
header names of the data file, and the `dim` / `filter_ranges` attributes. -/
structure GoatsData where
  rows : List SensorRow
  rawRanges : List (List RVal)
  filteredRanges : List (List RVal)
  beaconLocs : List (ℚ × ℚ)
  dataCols : List String
  dim : ℕ
  filterRanges : Bool
  deriving DecidableEq

/-- Embeds `num_beacons`: `len(self._beacon_locs)`. -/
def GoatsData.numBeacons (d : GoatsData) : ℕ := d.beaconLocs.length

/-- The number of rows of the sensor table. -/
def GoatsData.numRows (d : GoatsData) : ℕ := d.rows.length

/-- Embeds `_get_ranges`: the filtered or the raw range column of one beacon,
per the `filter_ranges` flag. -/
def GoatsData.getRanges (d : GoatsData) (b : ℕ) : List RVal :=
  if d.filterRanges then d.filteredRanges.getD b [] else d.rawRanges.getD b []

/-- The range cell of beacon `b` at row `r`; a cell beyond the column is NaN
(the pandas encoding of a missing value). -/
def GoatsData.rangeAt (d : GoatsData) (b r : ℕ) : RVal :=
  (d.getRanges b).getD r RVal.nan

/-- Embeds the `rotations` property, 2D path: the `insRPY_3` (yaw) column. -/
def GoatsData.rotations (d : GoatsData) : List ℚ :=
  d.rows.map SensorRow.yaw

/-- Embeds the `gt_rotations` property: the source returns `self.rotations`
(after logging that ground-truth rotations are taken from the corrected INS
data). -/
def GoatsData.gtRotations (d : GoatsData) : List ℚ :=
  d.rotations

/-- Embeds the `positions` property, 2D path: `insXYZ_1/2`. -/
def GoatsData.positions (d : GoatsData) : List (ℚ × ℚ) :=
  d.rows.map (fun row => (row.insX, row.insY))

/-- Embeds the `gt_positions` property, 2D path: `iNav_GT_1/2`. -/
def GoatsData.gtPositions (d : GoatsData) : List (ℚ × ℚ) :=
  d.rows.map (fun row => (row.gtX, row.gtY))

/-- What the specification calls the INS yaw channel (spec §6: the orientation
column of the sensor table).  Stated from the spec's words, for comparison
with the source-derived `rotations` / `gtRotations` accessors. -/
def GoatsData.insYawChannel (d : GoatsData) : List ℚ :=
  d.rows.map SensorRow.yaw

/-- Embeds `_row_has_range_measures`: `np.any(~np.isnan(...))` over the range
cells of ALL beacons (`range(self.num_beacons)`) at one row. -/
def GoatsData.rowHasRangeMeasures (d : GoatsData) (r : ℕ) : Bool :=
  (List.range d.numBeacons).any (fun b => ! (d.rangeAt b r).isNaN)

/-- Embeds the admission test of `_add_beacon_variables`: a beacon is kept
unless `np.count_nonzero(~np.isnan(ranges)) < self.dim`. -/
def GoatsData.beaconAdmitted (d : GoatsData) (b : ℕ) : Bool :=
  if (d.getRanges b).countP (fun v => ! v.isNaN) < d.dim then false else true

/-- Embeds `_add_beacon_variables`: the landmark variables added to the factor
graph, in beacon order — name `"L" + idx` and the beacon location. -/
def GoatsData.landmarkVars (d : GoatsData) : List (String × (ℚ × ℚ)) :=
  (List.range d.numBeacons).filterMap (fun b =>
    if d.beaconAdmitted b then
      some ("L" ++ toString b, d.beaconLocs.getD b (0, 0))
    else none)

/-- Embeds the admission test of `_add_pose_variables`: a row is skipped iff
it has no range measures and is not row 0. -/
def GoatsData.poseAdmitted (d : GoatsData) (r : ℕ) : Bool :=
  decide (r = 0) || d.rowHasRangeMeasures r

/-- Embeds `_add_pose_variables`: the pose variables added to the factor
graph, enumerating `zip(self.gt_positions, self.gt_rotations)` — name
`"A" + idx`, ground-truth position, and ground-truth rotation. -/
def GoatsData.poseVars (d : GoatsData) : List (String × (ℚ × ℚ) × ℚ) :=
  ((d.gtPositions).zip d.gtRotations).enum.filterMap (fun p =>
    if d.poseAdmitted p.1 then
      some ("A" ++ toString p.1, p.2.1, p.2.2)
    else none)

/-- The row indices admitted as pose variables, in order. -/
def GoatsData.admittedRows (d : GoatsData) : List ℕ :=
  (List.range d.numRows).filter (fun r => d.poseAdmitted r)

/-- The loop body chain of `_add_odometry_measurements` over the remaining row
indices, carrying `base_pose_name`: a row without range measures is skipped;
row 0 only refreshes `curr_pose`; any other surviving row `r` emits an
odometry measurement `(base_pose_name, "A" + r)` and then sets
`base_pose_name` to `"A" + r`. -/
def odomChainAux (d : GoatsData) (base : String) : List ℕ → List (String × String)
  | [] => []
  | r :: rs =>
    if d.rowHasRangeMeasures r then
      if r = 0 then odomChainAux d base rs
      else (base, "A" ++ toString r) :: odomChainAux d ("A" ++ toString r) rs
    else odomChainAux d base rs

/-- Embeds `_add_odometry_measurements`: the `(base_pose, to_pose)` identifier
pairs of the emitted odometry measurements, in emission order, starting from
`base_pose_name = "A0"`.  The numeric payload of each measurement (relative
rotation/translation and the fixed precisions) is computed by
`py_factor_graph.utils.matrix_utils`, which is outside this slice of the
source; the claims below concern only the identifier chain. -/
def GoatsData.odomChain (d : GoatsData) : List (String × String) :=
  odomChainAux d "A0" (List.range d.numRows)

/-- The consecutive pairs of a list: `consecPairs [a, b, c] = [(a, b), (b, c)]`.
Used to state that the odometry factors chain consecutive admitted poses. -/
def consecPairs : List String → List (String × String)
  | a :: b :: rest => (a, b) :: consecPairs (b :: rest)
  | _ => []

/-- The dead out-of-bounds test of `_add_range_measurements`:
`dist < 2.0 or dist > 150.0`.  In the source its body is `pass` (the
logging and the `continue` are commented out), so it filters nothing. -/
def outOfBounds (q : ℚ) : Bool :=
  decide (q < 2) || decide (q > 150)

/-- The per-cell emission of `_add_range_measurements` (beacon `b`, row `i`):
the cell is skipped when `np.isnan(dist) or np.isinf(dist) or not
np.isreal(dist)`; since `isReal` is identically true, only a finite value
survives, and it is emitted — the out-of-bounds test's body is `pass`. -/
def emitOfReading (b i : ℕ) : RVal → Option (ℕ × ℕ × ℚ)
  | RVal.fin q => some (b, i, q)
  | _ => none

/-- Embeds the emission loop of `_add_range_measurements` as (beacon index,
row index, distance) triples: ALL beacons `range(self.num_beacons)` are
enumerated — admitted or not — and for each, every finite cell of its range
column is emitted. -/
def GoatsData.rangeEmits (d : GoatsData) : List (ℕ × ℕ × ℚ) :=
  (List.range d.numBeacons).flatMap (fun b =>
    (d.getRanges b).enum.filterMap (fun p => emitOfReading b p.1 p.2))

/-- Embeds `_add_range_measurements`: every emitted triple becomes
`FGRangeMeasurement((f"A{pose_idx}", f"L{beacon_idx}"), dist, 0.75)` — the
stddev first computed as `(1.0 / 10.0) ** 0.5` is reassigned to `0.75`
before the loop runs, so every constructed measurement carries `0.75`. -/
def GoatsData.rangeMeasurements (d : GoatsData) : List FGRangeMeasurement :=
  d.rangeEmits.map (fun t =>
    ⟨["A" ++ toString t.2.1, "L" ++ toString t.1], t.2.2, 3 / 4⟩)

/-! ## Parser construction and structural validation -/

/-- The facts about a filesystem path that `_verify_path_is_goats_csv`
inspects: whether it exists, whether it is a file, and its extension. -/
structure PathInfo where
  name : String
  pathExists : Bool
  isFile : Bool
  suffix : String
  deriving DecidableEq

/-- Embeds `_verify_path_is_goats_csv`: raises on a missing path, a non-file,
or a suffix other than `.csv`, in that order. -/
def verifyPathIsGoatsCsv (p : PathInfo) : Except String Unit :=
  if ¬ p.pathExists then Except.error (p.name ++ " does not exist")
  else if ¬ p.isFile then Except.error (p.name ++ " is not a file")
  else if ¬ (p.suffix = ".csv") then Except.error (p.name ++ " is not a .csv file")
  else Except.ok ()

/-- Is `needle` a contiguous run of `hay`?  (The Python `in` operator on
strings, character-list view.) -/
def charsContain (needle : List Char) : List Char → Bool
  | [] => needle.isEmpty
  | c :: rest => needle.isPrefixOf (c :: rest) || charsContain needle rest

/-- The Python substring test `needle in hay`. -/
def strContains (hay needle : String) : Bool :=
  charsContain needle.toList hay.toList

/-- Embeds the `range_cols` selection of `_check_beacon_num_consistent`:
column names starting with `"ranges_"` with `"filtered" not in x`. -/
def rangeColNames (cols : List String) : List String :=
  cols.filter (fun x => strStarts x "ranges_" && ! strContains x "filtered")

/-- Embeds the `filtered_range_cols` selection: column names starting with
`"filtered_ranges_"`. -/
def filteredRangeColNames (cols : List String) : List String :=
  cols.filter (fun x => strStarts x "filtered_ranges_")

/-- Embeds `_check_beacon_num_consistent`: asserts
`len(range_cols) == len(filtered_range_cols) == num_beacon_locs`. -/
def checkBeaconNumConsistent (cols : List String) (numBeaconLocs : ℕ) :
    Except String Unit :=
  if (rangeColNames cols).length = (filteredRangeColNames cols).length
      ∧ (filteredRangeColNames cols).length = numBeaconLocs then
    Except.ok ()
  else
    Except.error ("Number of beacon info is inconsistent. "
      ++ toString (rangeColNames cols).length ++ " vs "
      ++ toString (filteredRangeColNames cols).length ++ " vs "
      ++ toString numBeaconLocs)

/-- The collections a completed ingestion run has handed to the
`FactorGraphData` aggregate, in submission order. -/
structure BuiltGraph where
  landmarks : List (String × (ℚ × ℚ))
  poses : List (String × (ℚ × ℚ) × ℚ)
  odometry : List (String × String)
  ranges : List FGRangeMeasurement
  deriving DecidableEq

/-- Embeds `_fill_factor_graph`: beacon variables, pose variables, odometry
measurements, then range measurements. -/
def GoatsData.buildGraph (d : GoatsData) : BuiltGraph :=
  ⟨d.landmarkVars, d.poseVars, d.odomChain, d.rangeMeasurements⟩

/-- Embeds `GoatsParser.__init__` and `__attrs_post_init__` up to graph
construction: the two path validators run first (in field order; the `dim`
validator is a lambda whose boolean result `attrs` ignores, so it never
raises), then the CSVs are loaded, then `_check_beacon_num_consistent` runs —
and only after all of that is the `FactorGraphData` created and filled.  An
error therefore means no variable or measurement was ever constructed. -/
def goatsParserInit (dataPath beaconLocPath : PathInfo) (d : GoatsData) :
    Except String BuiltGraph :=
  match verifyPathIsGoatsCsv dataPath with
  | Except.error e => Except.error e
  | Except.ok _ =>
    match verifyPathIsGoatsCsv beaconLocPath with
    | Except.error e => Except.error e
    | Except.ok _ =>
      match checkBeaconNumConsistent d.dataCols d.numBeacons with
      | Except.error e => Except.error e
      | Except.ok _ => Except.ok d.buildGraph

/-! ## Concrete scenario data -/

/-- A sensor row with all channels zero (the scenarios below exercise the
range channels; the pose channels' values are immaterial to the claims). -/
def zeroRow : SensorRow := ⟨0, 0, 0, 0, 0⟩

/-- Scenario data for the beacon-admission claim: dim 2, one beacon whose raw
range column holds exactly one valid reading (row 1 of 3). -/
def dBeacon1 : GoatsData :=
  { rows := [zeroRow, zeroRow, zeroRow]
    rawRanges := [[RVal.nan, RVal.fin 5, RVal.nan]]
    filteredRanges := [[RVal.nan, RVal.fin 5, RVal.nan]]
    beaconLocs := [(1, 2)]
    dataCols := ["insXYZ_1", "insXYZ_2", "insRPY_3", "iNav_GT_1", "iNav_GT_2",
                 "ranges_1", "filtered_ranges_1"]
    dim := 2
    filterRanges := false }

/-- Scenario data for the pose-admission claim: dim 2, beacon 0 has a single
valid reading (row 1 only, so it is NOT admitted as a landmark), beacon 1 has
two valid readings (rows 0 and 2, so it IS admitted) and NaN at row 1. -/
def dPose : GoatsData :=
  { rows := [zeroRow, zeroRow, zeroRow]
    rawRanges := [[RVal.nan, RVal.fin 5, RVal.nan],
                  [RVal.fin 3, RVal.nan, RVal.fin 4]]
    filteredRanges := [[RVal.nan, RVal.fin 5, RVal.nan],
                       [RVal.fin 3, RVal.nan, RVal.fin 4]]
    beaconLocs := [(1, 2), (3, 4)]
    dataCols := ["ranges_1", "ranges_2", "filtered_ranges_1", "filtered_ranges_2"]
    dim := 2
    filterRanges := false }

/-- The spec's 5-row odometry scenario: one admitted beacon, row 2 all-missing,
every other row with a valid reading. -/
def dFiveRows : GoatsData :=
  { rows := [zeroRow, zeroRow, zeroRow, zeroRow, zeroRow]
    rawRanges := [[RVal.fin 3, RVal.fin 4, RVal.nan, RVal.fin 5, RVal.fin 6]]
    filteredRanges := [[RVal.fin 3, RVal.fin 4, RVal.nan, RVal.fin 5, RVal.fin 6]]
    beaconLocs := [(1, 2)]
    dataCols := ["ranges_1", "filtered_ranges_1"]
    dim := 2
    filterRanges := false }

/-- The spec's range-derivation scenario: one beacon whose column holds a
below-minimum value `1.0`, a NaN, an infinity, and an above-maximum `200.0`. -/
def dBounds : GoatsData :=
  { rows := [zeroRow, zeroRow, zeroRow, zeroRow]
    rawRanges := [[RVal.fin 1, RVal.nan, RVal.inf, RVal.fin 200]]
    filteredRanges := [[RVal.fin 1, RVal.nan, RVal.inf, RVal.fin 200]]
    beaconLocs := [(1, 2)]
    dataCols := ["ranges_1", "filtered_ranges_1"]
    dim := 2
    filterRanges := false }

/-- The spec's structural-input scenario: a beacon-location table with 3
beacons but a data file exposing range columns for only 2. -/
def dMismatch : GoatsData :=
  { rows := [zeroRow]
    rawRanges := [[RVal.fin 3], [RVal.fin 4]]
    filteredRanges := [[RVal.fin 3], [RVal.fin 4]]
    beaconLocs := [(1, 2), (3, 4), (5, 6)]
    dataCols := ["ranges_1", "ranges_2", "filtered_ranges_1", "filtered_ranges_2"]
    dim := 2
    filterRanges := false }

/-- A well-formed path record for the scenarios. -/
def csvPath : PathInfo := ⟨"data.csv", true, true, ".csv"⟩

/-! ## Helper lemmas -/

theorem dedup_length_aux {l : List String} :
    l.dedup.length = l.length ↔ l.Nodup := by
  constructor
  · intro h
    have hsub : l.dedup.Sublist l := List.dedup_sublist l
    have : l.dedup = l := hsub.eq_of_length h
    exact this ▸ List.nodup_dedup l
  · intro h
    rw [List.dedup_eq_self.mpr h]

theorem checkAmbiguous_ok_iff (v : List String) :
    checkAmbiguousAssociation v = Except.ok () ↔ (v.length = 2 ∧ v.Nodup) := by
  simp only [checkAmbiguousAssociation]
  split_ifs with h1 h2
  · simp only [reduceCtorEq, false_iff, not_and]
    intro h
    exact absurd h h1
  · simp only [reduceCtorEq, false_iff, not_and]
    intro h hn
    exact h2 (dedup_length_aux.mpr hn).symm
  · push_neg at h1 h2
    simp only [true_iff]
    exact ⟨h1, dedup_length_aux.mp h2.symm⟩

theorem mkAmbiguous_ok_iff (ta ma : List String) (d s : ℚ) :
    isOk (mkAmbiguousFGRangeMeasurement ta ma d s) = true ↔
      (checkAmbiguousAssociation ta = Except.ok ()
        ∧ checkAmbiguousAssociation ma = Except.ok ()) := by
  simp only [mkAmbiguousFGRangeMeasurement]
  cases hta : checkAmbiguousAssociation ta with
  | error e => simp [hta, isOk]
  | ok u =>
    cases u
    cases hma : checkAmbiguousAssociation ma with
    | error e => simp [hma, isOk]
    | ok v =>
      cases v
      simp [hma, isOk]

theorem emitOfReading_eq_some (b i : ℕ) (v : RVal) (b' r : ℕ) (q : ℚ) :
    emitOfReading b i v = some (b', r, q) ↔ (b' = b ∧ r = i ∧ v = RVal.fin q) := by
  cases v <;> simp [emitOfReading] <;> aesop

theorem rangeAt_fin_iff {l : List RVal} {r : ℕ} {q : ℚ} :
    l.getD r RVal.nan = RVal.fin q ↔ l[r]? = some (RVal.fin q) := by
  rw [List.getD_eq_getD_get?, List.get?_eq_getElem?]
  cases h : l[r]? with
  | none => simp
  | some v => simp

theorem enumFrom_filterMap_names (d : GoatsData) :
    ∀ (l : List ((ℚ × ℚ) × ℚ)) (k : ℕ),
      ((l.enumFrom k).filterMap (fun p =>
          if d.poseAdmitted p.1 then some ("A" ++ toString p.1, p.2.1, p.2.2)
          else none)).map Prod.fst
        = ((List.range' k l.length).filter (fun r => d.poseAdmitted r)).map
            (fun r => "A" ++ toString r) := by
  intro l
  induction l with
  | nil => intro k; rfl
  | cons x xs ih =>
    intro k
    by_cases h : d.poseAdmitted k
    · simp [List.enumFrom_cons, List.range'_succ, h, ih (k + 1)]
    · simp [List.enumFrom_cons, List.range'_succ, h, ih (k + 1)]

theorem poseVars_names (d : GoatsData) :
    (d.poseVars).map Prod.fst = (d.admittedRows).map (fun r => "A" ++ toString r) := by
  unfold GoatsData.poseVars GoatsData.admittedRows
  rw [List.enum_eq_enumFrom, enumFrom_filterMap_names, List.range_eq_range']
  congr 2
  simp [GoatsData.gtPositions, GoatsData.gtRotations, GoatsData.rotations, GoatsData.numRows]

theorem consecPairs_cons (a b : String) (t : List String) :
    consecPairs (a :: b :: t) = (a, b) :: consecPairs (b :: t) := rfl

theorem odomChainAux_eq (d : GoatsData) :
    ∀ (l : List ℕ) (base : String), (∀ r ∈ l, r ≠ 0) →
      odomChainAux d base l
        = consecPairs (base :: ((l.filter (fun r => d.rowHasRangeMeasures r)).map
            (fun r => "A" ++ toString r))) := by
  intro l
  induction l with
  | nil => intro base h; rfl
  | cons r rs ih =>
    intro base h
    have hr : r ≠ 0 := h r (List.mem_cons_self r rs)
    have hrs : ∀ x ∈ rs, x ≠ 0 := fun x hx => h x (List.mem_cons_of_mem r hx)
    by_cases hc : d.rowHasRangeMeasures r
    · rw [List.filter_cons_of_pos (by simpa using hc), List.map_cons, consecPairs_cons]
      simp only [odomChainAux, if_pos hc, if_neg hr]
      rw [ih ("A" ++ toString r) hrs]
    · rw [List.filter_cons_of_neg (by simpa using hc)]
      simp only [odomChainAux, if_neg hc]
      exact ih base hrs

theorem odomChainAux_zero_head (d : GoatsData) (base : String) (l : List ℕ) :
    odomChainAux d base (0 :: l) = odomChainAux d base l := by
  by_cases hc : d.rowHasRangeMeasures 0 <;> simp [odomChainAux, hc]

theorem verifyPath_ok {p : PathInfo} {u : Unit}
    (h : verifyPathIsGoatsCsv p = Except.ok u) :
    p.pathExists = true ∧ p.isFile = true ∧ p.suffix = ".csv" := by
  unfold verifyPathIsGoatsCsv at h
  split_ifs at h with h1 h2 h3 <;> simp_all

theorem checkBeaconNum_ok {cols : List String} {n : ℕ} {u : Unit}
    (h : checkBeaconNumConsistent cols n = Except.ok u) :
    (rangeColNames cols).length = (filteredRangeColNames cols).length
      ∧ (filteredRangeColNames cols).length = n := by
  unfold checkBeaconNumConsistent at h
  split_ifs at h with h1 <;> simp_all

/-! ## The claims -/

/-- C1.  The claim asserts that a beacon whose range channel holds fewer than
`dim` non-NaN readings is not added as a Landmark Variable AND that no Range
Measurement referencing its identifier is produced.  The first half is true,
but the second is not: on `dBeacon1` (dim 2, one beacon with a single valid
reading `5.0` at row 1) the beacon is dropped — `landmarkVars` is empty —
yet `_add_range_measurements`, which loops over all of `range(num_beacons)`
rather than over admitted beacons, still constructs and submits the range
measurement `(("A1", "L0"), 5.0, 0.75)` naming the never-added landmark
`"L0"`: a dangling reference.  (The `FGRangeMeasurement` constructor itself
accepts that association, as the last conjunct shows, so the construction
does not abort either.) -/
theorem goats_c1_dangling_range :
    dBeacon1.beaconAdmitted 0 = false
  ∧ dBeacon1.landmarkVars = []
  ∧ dBeacon1.rangeMeasurements = [⟨["A1", "L0"], 5, 3 / 4⟩]
  ∧ (dBeacon1.poseVars).map Prod.fst = ["A0", "A1"]
  ∧ mkFGRangeMeasurement ["A1", "L0"] 5 (3 / 4) = Except.ok ⟨["A1", "L0"], 5, 3 / 4⟩ :=
  ⟨by decide, by decide, rfl, rfl, rfl⟩

/-- C2 (counterexample).  The claim asserts that constructing a Pose
Measurement with a non-positive precision fails at construction time.  It
does not: `PoseMeasurement` declares no validator on any field, so
construction with `translation_weight = rotation_weight = -1` succeeds and
the resulting observable value has the negative covariance diagonal
`[-1, -1, -1]`. -/
theorem poseMeasurement_c2_counterexample :
    mkPoseMeasurement "A0" "A1" 0 0 0 (-1) (-1)
      = Except.ok ⟨"A0", "A1", 0, 0, 0, -1, -1⟩
  ∧ (⟨"A0", "A1", 0, 0, 0, -1, -1⟩ : PoseMeasurement).covariance
      = [[-1, 0, 0], [0, -1, 0], [0, 0, -1]] :=
  ⟨rfl, by norm_num [PoseMeasurement.covariance]⟩

/-- C2 (amended).  Construction of a `PoseMeasurement` runs no validation at
all: it succeeds for every input — zero and negative precision weights
included — and the `covariance` accessor simply returns the diagonal of
reciprocals `1/translation_weight` (twice) and `1/rotation_weight`, with no
guarantee of finiteness or positivity. -/
theorem poseMeasurement_c2_no_validation :
    ∀ (b t : String) (x y th tw rw : ℚ),
      mkPoseMeasurement b t x y th tw rw = Except.ok ⟨b, t, x, y, th, tw, rw⟩ ∧
      PoseMeasurement.covariance ⟨b, t, x, y, th, tw, rw⟩
        = [[1 / tw, 0, 0], [0, 1 / tw, 0], [0, 0, 1 / rw]] :=
  fun _ _ _ _ _ _ _ => ⟨rfl, rfl⟩

/-- C3 (counterexample).  The claim asserts a row other than 0 is admitted as
a Pose Variable only if an ADMITTED beacon has a non-missing reading there.
On `dPose` (beacon 0 not admitted — one valid reading at dim 2 — and
beacon 1 admitted), row 1 is admitted although the only admitted beacon,
beacon 1, reads NaN at row 1: `_row_has_range_measures` scans all beacons,
not the admitted ones. -/
theorem goats_c3_counterexample :
    ¬ (∀ r ∈ dPose.admittedRows,
        r = 0 ∨ ∃ b < dPose.numBeacons,
          dPose.beaconAdmitted b = true ∧ (dPose.rangeAt b r).isNaN = false) := by
  intro h
  rcases h 1 (by decide) with h0 | ⟨b, hb, hadm, hnn⟩
  · exact absurd h0 (by decide)
  · have hb2 : b < 2 := hb
    interval_cases b
    · exact absurd hadm (by decide)
    · exact absurd hnn (by decide)

/-- C3 (amended).  Row 0 is always admitted as a Pose Variable, and any other
row is admitted if and only if at least one beacon — admitted as a landmark
or not — has a non-NaN range reading at that row; rows with no such
coverage are skipped.  The first conjunct ties the admitted row indices to
the Pose Variables actually created. -/
theorem goats_c3_pose_admission :
    (∀ d : GoatsData, (d.poseVars).map Prod.fst
        = (d.admittedRows).map (fun r => "A" ++ toString r))
  ∧ (∀ (d : GoatsData) (r : ℕ),
        r ∈ d.admittedRows ↔
          (r < d.numRows ∧ (r = 0 ∨ ∃ b < d.numBeacons, (d.rangeAt b r).isNaN = false))) := by
  refine ⟨poseVars_names, ?_⟩
  intro d r
  simp only [GoatsData.admittedRows, List.mem_filter, List.mem_range, GoatsData.poseAdmitted,
    Bool.or_eq_true, decide_eq_true_eq, GoatsData.rowHasRangeMeasures, List.any_eq_true,
    Bool.not_eq_true']

/-- C4.  `FGRangeMeasurement` construction fails iff the association's length
is not 2, its two elements are equal, its first element starts with `"L"`,
or its second element does not start with `"L"`; the four rejections carry
four pairwise-distinct `ValueError` messages (checked in source order), and
every measurement constructed with `stddev ≠ 0` has `weight = 1/stddev²`. -/
theorem fgRange_c4_validation :
    (∀ (a : List String) (d s : ℚ), a.length ≠ 2 →
        mkFGRangeMeasurement a d s = Except.error errAssocLen)
  ∧ (∀ (x y : String) (d s : ℚ),
        mkFGRangeMeasurement [x, y] d s = Except.ok ⟨[x, y], d, s⟩ ↔
          (x ≠ y ∧ strStarts x "L" = false ∧ strStarts y "L" = true))
  ∧ (∀ (x y : String) (d s : ℚ),
        mkFGRangeMeasurement [x, y] d s = Except.error errAssocDup ↔ x = y)
  ∧ (∀ (x y : String) (d s : ℚ),
        mkFGRangeMeasurement [x, y] d s = Except.error errAssocPoseRole ↔
          (x ≠ y ∧ strStarts x "L" = true))
  ∧ (∀ (x y : String) (d s : ℚ),
        mkFGRangeMeasurement [x, y] d s = Except.error errAssocLandmarkRole ↔
          (x ≠ y ∧ strStarts x "L" = false ∧ strStarts y "L" = false))
  ∧ List.Pairwise (fun e f => e ≠ f)
      [errAssocLen, errAssocDup, errAssocPoseRole, errAssocLandmarkRole]
  ∧ (∀ (a : List String) (d s : ℚ) (m : FGRangeMeasurement), s ≠ 0 →
        mkFGRangeMeasurement a d s = Except.ok m → m.weight = 1 / s ^ 2) := by
  refine ⟨?_, ?_, ?_, ?_, ?_, ?_, ?_⟩
  · intro a d s ha
    match a with
    | [] => rfl
    | [_] => rfl
    | [_, _] => simp at ha
    | _ :: _ :: _ :: _ => rfl
  · intro x y d s
    simp only [mkFGRangeMeasurement, checkAssociation]
    split_ifs with h1 h2 h3 <;> simp_all +decide
  · intro x y d s
    simp only [mkFGRangeMeasurement, checkAssociation]
    split_ifs with h1 h2 h3 <;> simp_all +decide
  · intro x y d s
    simp only [mkFGRangeMeasurement, checkAssociation]
    split_ifs with h1 h2 h3 <;> simp_all +decide
  · intro x y d s
    simp only [mkFGRangeMeasurement, checkAssociation]
    split_ifs with h1 h2 h3 <;> simp_all +decide
  · decide
  · intro a d s m hs hm
    simp only [mkFGRangeMeasurement] at hm
    revert hm
    split
    · intro hm
      cases hm
      simp [FGRangeMeasurement.weight]
    · intro hm
      cases hm

/-- C5.  The odometry factors chain consecutive ADMITTED poses: for every
dataset with at least one row, the emitted `(base_pose, to_pose)` pairs are
exactly the consecutive pairs of the admitted pose identifiers (so the chain
skips observationally-silent rows).  On the spec's 5-row scenario
(`dFiveRows`, row 2 all-missing) exactly the four Pose Variables
A0, A1, A3, A4 are admitted and the chain is (A0→A1), (A1→A3), (A3→A4). -/
theorem goats_c5_odometry_chain :
    (∀ d : GoatsData, 1 ≤ d.numRows →
        d.odomChain = consecPairs ((d.admittedRows).map (fun r => "A" ++ toString r)))
  ∧ ((dFiveRows.poseVars).map Prod.fst = ["A0", "A1", "A3", "A4"]
      ∧ dFiveRows.admittedRows = [0, 1, 3, 4]
      ∧ dFiveRows.odomChain = [("A0", "A1"), ("A1", "A3"), ("A3", "A4")]) := by
  refine ⟨?_, rfl, rfl, rfl⟩
  intro d h
  obtain ⟨m, hm⟩ : ∃ m, d.numRows = m + 1 := ⟨d.numRows - 1, by omega⟩
  unfold GoatsData.odomChain GoatsData.admittedRows
  rw [hm, List.range_succ_eq_map, odomChainAux_zero_head]
  have hz : ∀ x ∈ (List.range m).map Nat.succ, x ≠ 0 := by
    intro x hx
    simp only [List.mem_map] at hx
    obtain ⟨y, _, rfl⟩ := hx
    exact Nat.succ_ne_zero y
  rw [odomChainAux_eq d _ "A0" hz]
  have hfe : ((List.range m).map Nat.succ).filter (fun r => d.poseAdmitted r)
      = ((List.range m).map Nat.succ).filter (fun r => d.rowHasRangeMeasures r) := by
    apply List.filter_congr
    intro x hx
    have hx0 : x ≠ 0 := hz x hx
    simp [GoatsData.poseAdmitted, hx0]
  rw [List.filter_cons_of_pos (by simp [GoatsData.poseAdmitted]), hfe, List.map_cons]
  rfl

/-- C6.  `AmbiguousFGRangeMeasurement` construction succeeds iff both the
true and the measured association have length 2 and no duplicate element; no
pose/landmark role constraint applies, in deliberate asymmetry with plain
`FGRangeMeasurement`: the two-landmark pair `("L1", "L2")` is accepted here
and rejected there. -/
theorem ambiguousRange_c6_validation :
    (∀ (ta ma : List String) (d s : ℚ),
        isOk (mkAmbiguousFGRangeMeasurement ta ma d s) = true ↔
          ((ta.length = 2 ∧ ta.Nodup) ∧ (ma.length = 2 ∧ ma.Nodup)))
  ∧ isOk (mkAmbiguousFGRangeMeasurement ["L1", "L2"] ["L1", "L2"] 1 1) = true
  ∧ isOk (mkFGRangeMeasurement ["L1", "L2"] 1 1) = false := by
  refine ⟨?_, by decide, by decide⟩
  intro ta ma d s
  rw [mkAmbiguous_ok_iff, checkAmbiguous_ok_iff, checkAmbiguous_ok_iff]

/-- C7.  A range cell is emitted as a Range Measurement iff its beacon index
is in range and the cell holds a finite real value — NaN, infinite and
non-real cells are excluded, and nothing else is: in particular the
out-of-bounds value `1.0` (below the minimum `2.0`) and `200.0` (above the
maximum `150.0`) of `dBounds` are both emitted although `outOfBounds` flags
them, while its NaN and infinity cells are not. -/
theorem goats_c7_range_emission :
    (∀ (d : GoatsData) (b r : ℕ) (q : ℚ),
        (b, r, q) ∈ d.rangeEmits ↔ (b < d.numBeacons ∧ d.rangeAt b r = RVal.fin q))
  ∧ (∀ d : GoatsData, d.rangeMeasurements = d.rangeEmits.map (fun t =>
        ⟨["A" ++ toString t.2.1, "L" ++ toString t.1], t.2.2, 3 / 4⟩))
  ∧ (dBounds.rangeEmits = [(0, 0, 1), (0, 3, 200)]
      ∧ outOfBounds 1 = true ∧ outOfBounds 200 = true
      ∧ (dBounds.rangeAt 0 1).isNaN = true ∧ (dBounds.rangeAt 0 2).isInf = true
      ∧ dBounds.rangeMeasurements
          = [⟨["A0", "L0"], 1, 3 / 4⟩, ⟨["A3", "L0"], 200, 3 / 4⟩]) := by
  refine ⟨?_, fun d => rfl, by decide, by decide, by decide, by decide, by decide, rfl⟩
  intro d b r q
  simp only [GoatsData.rangeEmits, List.mem_flatMap, List.mem_filterMap, List.mem_range]
  constructor
  · rintro ⟨b', hb', ⟨i, v⟩, hp, hemit⟩
    obtain ⟨rfl, rfl, rfl⟩ := (emitOfReading_eq_some b' i v b r q).mp hemit
    refine ⟨hb', ?_⟩
    rw [List.mk_mem_enum_iff_getElem?] at hp
    exact rangeAt_fin_iff.mpr hp
  · rintro ⟨hb, hq⟩
    refine ⟨b, hb, (r, RVal.fin q), ?_, ?_⟩
    · rw [List.mk_mem_enum_iff_getElem?]
      exact rangeAt_fin_iff.mp hq
    · simp [emitOfReading]

/-- C8.  Any structurally invalid input — a data or beacon-location path that
does not exist, is not a file or lacks the `.csv` suffix, or a data file
whose range / filtered-range column count differs from the number of beacon
locations — makes `GoatsParser` construction fail with an error; in the
model the graph is only built after every check has passed, so an error
means no Variable or Measurement was ever created. -/
theorem goats_c8_structural_errors :
    ∀ (pd pb : PathInfo) (d : GoatsData),
      (pd.pathExists = false ∨ pd.isFile = false ∨ pd.suffix ≠ ".csv"
        ∨ pb.pathExists = false ∨ pb.isFile = false ∨ pb.suffix ≠ ".csv"
        ∨ (rangeColNames d.dataCols).length ≠ d.numBeacons
        ∨ (filteredRangeColNames d.dataCols).length ≠ d.numBeacons) →
      ∃ e, goatsParserInit pd pb d = Except.error e := by
  intro pd pb d h
  cases h1 : verifyPathIsGoatsCsv pd with
  | error e => exact ⟨e, by simp [goatsParserInit, h1]⟩
  | ok u1 =>
    cases h2 : verifyPathIsGoatsCsv pb with
    | error e => exact ⟨e, by simp [goatsParserInit, h1, h2]⟩
    | ok u2 =>
      cases h3 : checkBeaconNumConsistent d.dataCols d.numBeacons with
      | error e => exact ⟨e, by simp [goatsParserInit, h1, h2, h3]⟩
      | ok u3 =>
        exfalso
        obtain ⟨ha1, ha2, ha3⟩ := verifyPath_ok h1
        obtain ⟨hb1, hb2, hb3⟩ := verifyPath_ok h2
        obtain ⟨hc1, hc2⟩ := checkBeaconNum_ok h3
        rcases h with h | h | h | h | h | h | h | h <;> simp_all

/-- C8 (witness).  The spec's scenario: 3 beacon locations but range columns
for only 2 beacons, on otherwise well-formed `.csv` paths, fails parser
construction. -/
theorem goats_c8_witness :
    ∃ e, goatsParserInit csvPath csvPath dMismatch = Except.error e :=
  goats_c8_structural_errors csvPath csvPath dMismatch (by decide)

/-- C9.  Every Range Measurement the pipeline emits carries the fixed
standard deviation `0.75 = 3/4` — whatever the dataset, the `filter_ranges`
flag, the beacon and the row — and hence weight `1/0.75² = 16/9`. -/
theorem goats_c9_fixed_stddev :
    ∀ (d : GoatsData) (m : FGRangeMeasurement),
      m ∈ d.rangeMeasurements → m.stddev = 3 / 4 ∧ m.weight = 16 / 9 := by
  intro d m hm
  simp only [GoatsData.rangeMeasurements, List.mem_map] at hm
  obtain ⟨t, _, rfl⟩ := hm
  exact ⟨rfl, by norm_num [FGRangeMeasurement.weight]⟩

/-- C9 (witness).  The one measurement emitted on `dBeacon1` carries stddev
`3/4` and weight `16/9`. -/
theorem goats_c9_witness :
    (⟨["A1", "L0"], 5, 3 / 4⟩ : FGRangeMeasurement).stddev = 3 / 4 ∧
    (⟨["A1", "L0"], 5, 3 / 4⟩ : FGRangeMeasurement).weight = 16 / 9 :=
  goats_c9_fixed_stddev dBeacon1 _ (List.mem_singleton.mpr rfl)

/-- C10.  The `gt_rotations` accessor returns exactly the `rotations`
accessor's values — the INS yaw channel — and each admitted Pose Variable
stores for its ground-truth orientation precisely that row's yaw value, the
same quantity odometry derivation reads; no independent ground-truth
orientation column exists in the model because none is read by the source. -/
theorem goats_c10_gt_rotations :
    (∀ d : GoatsData, d.gtRotations = d.rotations ∧ d.rotations = d.insYawChannel)
  ∧ (∀ (d : GoatsData) (r : ℕ) (row : SensorRow),
        d.rows[r]? = some row → d.poseAdmitted r = true →
        ("A" ++ toString r, (row.gtX, row.gtY), row.yaw) ∈ d.poseVars) := by
  refine ⟨fun d => ⟨rfl, rfl⟩, ?_⟩
  intro d r row hrow hadm
  simp only [GoatsData.poseVars, List.mem_filterMap]
  refine ⟨(r, ((row.gtX, row.gtY), row.yaw)), ?_, by simp [hadm]⟩
  rw [List.mk_mem_enum_iff_getElem?, List.getElem?_zip_eq_some]
  constructor
  · simp [GoatsData.gtPositions, hrow]
  · simp [GoatsData.gtRotations, GoatsData.rotations, hrow]

/-- C10 (witness).  Row 0 of `dBeacon1` is admitted and its Pose Variable
stores the row's yaw. -/
theorem goats_c10_witness :
    ("A0", ((0 : ℚ), (0 : ℚ)), (0 : ℚ)) ∈ dBeacon1.poseVars :=
  goats_c10_gt_rotations.2 dBeacon1 0 zeroRow (by decide) (by decide)

end PyFactorGraph
